import Mathlib

/-!
Shallow embedding of the TravelAgent pipeline (src/TravelAgent.py) and
verification of its specification claims.

Modelling conventions:
* Calendar dates are `Nat` day numbers; Python `timedelta(days = n)` is `+ n`.
* Python `Optional[T]` is `Option T`.
* External provider calls are modelled by passing the provider response as an
  explicit argument: a transport/provider error is `Except.error`, a missing
  JSON field is an `Option` that is `none`.
* Python exceptions escaping a function are modelled by an `Except.error`
  result of that function; an exception caught inside the function does not
  surface.
-/

set_option autoImplicit false

namespace TravelAgent

/-- The `UserRequest` pydantic model: origin/destination place names, optional
dates, optional budget, optional interest keywords. Dates are day numbers,
budget is carried opaquely (its value is never computed with downstream). -/
structure UserRequest where
  origin : String
  destination : String
  start_date : Option Nat := none
  end_date : Option Nat := none
  budget : Option Int := none
  interests : Option (List String) := none
  deriving Repr, DecidableEq

/-- `ensure_dates(req)`: if `start_date` is `None` set it to today + 2 weeks;
then if `end_date` is `None` set it to (the possibly just defaulted)
`start_date` + 7 days. `today` stands for `datetime.now().date()`. -/
def ensure_dates (today : Nat) (req : UserRequest) : UserRequest :=
  let r1 := if req.start_date.isNone then
    { req with start_date := some (today + 14) } else req
  if r1.end_date.isNone then
    { r1 with end_date := some (r1.start_date.getD 0 + 7) } else r1

/-- Python `str.lower()`: lowercase every character. -/
def pyLower (s : String) : String := ⟨s.data.map Char.toLower⟩

/-- Python `str.strip()`: drop whitespace from both ends. -/
def pyStrip (s : String) : String :=
  ⟨(s.data.dropWhile Char.isWhitespace).rdropWhile Char.isWhitespace⟩

/-- One record of the `airportsdata.load('IATA')` table: the IATA code (the
dict key) and the record's `city` field, absent when the record has none. -/
structure AirportInfo where
  code : String
  city : Option String
  deriving Repr, DecidableEq

/-- `info.get('city', '')`: the city field with the empty string as default. -/
def cityOf (a : AirportInfo) : String := a.city.getD ""

/-- The `for code, info in airports.items()` loop body of `find_iata`:
return the first code whose city field, lowercased, equals `city_lower`. -/
def findIataLoop (city_lower : String) : List AirportInfo → Option String
  | [] => none
  | a :: rest =>
    if pyLower (cityOf a) = city_lower then some a.code
    else findIataLoop city_lower rest

/-- `find_iata(city_name)`: scan the airport table for the first record whose
`city` field (defaulted to `""`), lowercased, equals the stripped, lowercased
input; raise `KeyError` naming the city when no record matches. -/
def find_iata (table : List AirportInfo) (city_name : String) :
    Except String String :=
  let city_lower := pyLower (pyStrip city_name)
  match findIataLoop city_lower table with
  | some code => .ok code
  | none => .error ("No IATA code found for city " ++ city_name)

/-- One segment of a flight offer, as read by `search_flights`:
`seg['carrierCode']`, `seg['number']`, `seg['departure']['at']`. -/
structure Segment where
  carrierCode : String
  number : String
  departureAt : String
  deriving Repr, DecidableEq

/-- One entry of an offer's `itineraries` list: its `segments` list. -/
structure FlightItinerary where
  segments : List Segment
  deriving Repr, DecidableEq

/-- One offer of the Amadeus `flight_offers_search` response. -/
structure Offer where
  itineraries : List FlightItinerary
  deriving Repr, DecidableEq

/-- The Amadeus response as `search_flights` sees it: `Except.error` when the
`get` call raises `ResponseError`, otherwise `resp.data` (`none` standing for a
missing/`None` data field). -/
abbrev FlightResp := Except Unit (Option (List Offer))

/-- `f"{seg['carrierCode']}{seg['number']} on {seg['departure']['at']}"`. -/
def describeSeg (seg : Segment) : String :=
  seg.carrierCode ++ seg.number ++ " on " ++ seg.departureAt

/-- The `for offer in resp.data or []` loop of `search_flights`: append one
descriptor per offer, reading `offer['itineraries'][0]['segments'][0]`; an
offer with no itinerary or no segment raises `IndexError`, which is not a
`ResponseError` and therefore escapes the `try` block. -/
def flightsLoop : List Offer → List String → Except String (List String)
  | [], acc => .ok acc
  | offer :: rest, acc =>
    match offer.itineraries.head? with
    | none => .error "IndexError"
    | some itin =>
      match itin.segments.head? with
      | none => .error "IndexError"
      | some seg => flightsLoop rest (acc ++ [describeSeg seg])

/-- `search_flights`: on `ResponseError` log and return the flights collected
so far (none, since the error comes from the `get` call before the loop);
otherwise build one descriptor per offer of `resp.data or []`. The `max: 3`
request parameter is sent to the provider and does not truncate locally. -/
def search_flights (resp : FlightResp) : Except String (List String) :=
  match resp with
  | .error _ => .ok []
  | .ok dataOpt => flightsLoop (dataOpt.getD []) []

/-- One event of the Eventbrite response: `ev['name']['text']` and
`ev['start']['local']`, each `none` when the JSON lacks the field. -/
structure EventInfo where
  nameText : Option String
  startLocal : Option String
  deriving Repr, DecidableEq

/-- The Eventbrite response as `search_events` sees it: `Except.error` for a
transport failure or non-2xx status, otherwise the `events` list. -/
abbrev EventResp := Except Unit (List EventInfo)

/-- `f"{ev['name']['text']} at {ev['start']['local']}"`; `none` when a field
is missing (a `KeyError`/`TypeError` inside the `try` block). -/
def describeEvent (ev : EventInfo) : Option String :=
  match ev.nameText, ev.startLocal with
  | some n, some t => some (n ++ " at " ++ t)
  | _, _ => none

/-- `if not token`: the `EVENTBRITE_TOKEN` variable is unset or empty. -/
def tokenMissing : Option String → Bool
  | none => true
  | some s => s == ""

/-- The list comprehension of `search_events` over `data[:3]`: all
descriptors, or `none` when any event lacks a field (the comprehension then
raises, and nothing is produced). -/
def eventsDescriptions : List EventInfo → Option (List String)
  | [] => some []
  | ev :: rest =>
    match describeEvent ev, eventsDescriptions rest with
    | some d, some ds => some (d :: ds)
    | _, _ => none

/-- `search_events`: with no token, warn and return `[]` without any request;
otherwise take the first 3 events and describe them, any exception inside the
`try` (transport, HTTP status, missing field) yielding `[]`. -/
def search_events (token : Option String) (resp : EventResp) : List String :=
  if tokenMissing token then []
  else
    match resp with
    | .error _ => []
    | .ok data =>
      match eventsDescriptions (data.take 3) with
      | some l => l
      | none => []

/-- The `tags` object of an Overpass element: its optional `name`. -/
structure OsmTags where
  name : Option String
  deriving Repr, DecidableEq

/-- One Overpass element; `tags` is absent when the JSON lacks it. -/
structure OsmElement where
  tags : Option OsmTags
  deriving Repr, DecidableEq

/-- `el.get('tags', {}).get('name')`. -/
def nameOf (el : OsmElement) : Option String := (el.tags.getD ⟨none⟩).name

/-- Geocoded coordinates of the destination (`loc.latitude, loc.longitude`);
their values only feed the Overpass query string. -/
structure Coords where
  lat : Int
  lon : Int
  deriving Repr, DecidableEq

/-- The Overpass response as `search_restaurants` sees it: `Except.error` for
a transport/JSON failure inside the `try`, otherwise the `elements` list. -/
abbrev RestResp := Except Unit (List OsmElement)

/-- The geocoder call as `search_restaurants` sees it: `Except.error` when
`geolocator.geocode` raises (a geocoder transport exception — the call sits
outside the `try` block, so such an exception escapes the function),
`Except.ok none` when it returns no location, `Except.ok (some c)` when it
resolves coordinates. -/
abbrev GeoResp := Except Unit (Option Coords)

/-- The element loop of `search_restaurants`: append each non-empty name not
already collected, and break as soon as 3 names are collected. -/
def restaurantsLoop : List OsmElement → List String → List String
  | [], acc => acc
  | el :: rest, acc =>
    let acc' :=
      match nameOf el with
      | some n => if n ≠ "" ∧ n ∉ acc then acc ++ [n] else acc
      | none => acc
    if acc'.length ≥ 3 then acc' else restaurantsLoop rest acc'

/-- `search_restaurants`: the geocode call comes first and is outside the
`try`, so a geocoder exception propagates out of the function; a geocoder
no-result warns and returns `[]`; an Overpass transport failure inside the
`try` logs and returns `[]`; otherwise collect up to 3 distinct restaurant
names from the Overpass elements. -/
def search_restaurants (geo : GeoResp) (resp : RestResp) :
    Except String (List String) :=
  match geo with
  | .error _ => .error "GeocoderError"
  | .ok none => .ok []
  | .ok (some _) =>
    match resp with
    | .error _ => .ok []
    | .ok elements => .ok (restaurantsLoop elements [])

/-- Rendering of an optional date in the prompt f-string (`None` when the
field, contrary to the normalizer's guarantee, is still absent). -/
def dateStr : Option Nat → String
  | none => "None"
  | some d => toString d

/-- The synthesis prompt built by `build_itinerary_text` (the prompt is the
function's contribution; the narrative generation itself is an external
oracle). Each fact list renders as its comma-join, or `"none"` if empty. -/
def build_itinerary_prompt (req : UserRequest)
    (flights events restaurants : List String) : String :=
  "Plan a friendly, detailed itinerary for a trip from " ++ req.origin ++
  " to " ++ req.destination ++ ", departing " ++ dateStr req.start_date ++
  " and returning " ++ dateStr req.end_date ++ ". " ++
  "Flights: " ++ (if flights.isEmpty then "none"
    else String.intercalate ", " flights) ++ ". " ++
  "Events: " ++ (if events.isEmpty then "none"
    else String.intercalate ", " events) ++ ". " ++
  "Restaurants: " ++ (if restaurants.isEmpty then "none"
    else String.intercalate ", " restaurants) ++ ". " ++
  "Do not return JSON. Write clear day-by-day bullet points." ++
  "Only give the itinerary for the trip, do not ask anything back." ++
  "Do not use Decorators like *\x27s, instead make use of whitespaces to make it look cleaner"

/-- The flight query assembled by `search_flights` (`params`): origin and
destination codes, departure and return dates, `adults: 1`, `max: 3`. -/
structure FlightQuery where
  originLocationCode : String
  destinationLocationCode : String
  departureDate : Option Nat
  returnDate : Option Nat
  adults : Nat
  maxResults : Nat
  deriving Repr, DecidableEq

/-- The event query assembled by `search_events`: destination address, date
range, and the space-joined interests (`' '.join(interests or [])`). -/
structure EventQuery where
  address : String
  rangeStart : Option Nat
  rangeEnd : Option Nat
  q : String
  deriving Repr, DecidableEq

/-- Everything `main` computes downstream of parsing: resolved codes, the
three provider queries and their results, and the synthesis prompt. -/
structure PipelineOut where
  origCode : String
  destCode : String
  flightQuery : FlightQuery
  flights : List String
  eventQuery : EventQuery
  events : List String
  restQuery : String
  restaurants : List String
  prompt : String
  deriving Repr, DecidableEq

/-- The `main` flow from a parsed request onwards: normalize the dates,
resolve both IATA codes (a `KeyError` is caught, logged, and ends the run with
no itinerary), run the three searches, and build the synthesis prompt. A
`none` result is a run that produced no itinerary. Provider responses are
passed in as arguments. -/
def runPipeline (today : Nat) (table : List AirportInfo) (freq : FlightResp)
    (token : Option String) (eresp : EventResp) (geo : GeoResp)
    (rresp : RestResp) (req0 : UserRequest) : Option PipelineOut :=
  let req := ensure_dates today req0
  match find_iata table req.origin with
  | .error _ => none
  | .ok origCode =>
    match find_iata table req.destination with
    | .error _ => none
    | .ok destCode =>
      match search_flights freq with
      | .error _ => none
      | .ok flights =>
        let events := search_events token eresp
        match search_restaurants geo rresp with
        | .error _ => none
        | .ok restaurants =>
        some {
          origCode := origCode
          destCode := destCode
          flightQuery := {
            originLocationCode := origCode
            destinationLocationCode := destCode
            departureDate := req.start_date
            returnDate := req.end_date
            adults := 1
            maxResults := 3 }
          flights := flights
          eventQuery := {
            address := req.destination
            rangeStart := req.start_date
            rangeEnd := req.end_date
            q := String.intercalate " " (req.interests.getD []) }
          events := events
          restQuery := req.destination
          restaurants := restaurants
          prompt := build_itinerary_prompt req flights events restaurants }

/-! ## Concrete inputs used to instantiate the claims -/

/-- A request whose explicitly supplied dates are in reverse order. -/
def reqBackwards : UserRequest :=
  { origin := "Boston", destination := "Denver",
    start_date := some 10, end_date := some 5 }

/-- A request with no dates supplied. -/
def reqNoDates : UserRequest := { origin := "Boston", destination := "Denver" }

/-- The one-record table used to instantiate the `find_iata` claims. -/
def parisTable : List AirportInfo := [{ code := "CDG", city := some "paris" }]

/-- A table whose second record has no city field. -/
def tableWithCityless : List AirportInfo :=
  [{ code := "CDG", city := some "paris" }, { code := "XYZ", city := none },
   { code := "ABC", city := some "" }]

/-- The descriptor `search_flights` builds from one offer, when the offer has
a first itinerary with a first segment. -/
def describeOffer (o : Offer) : Option String :=
  o.itineraries.head?.bind fun itin => itin.segments.head?.map describeSeg

/-- A well-formed one-segment offer. -/
def offerAA100 : Offer :=
  { itineraries := [{ segments :=
      [{ carrierCode := "AA", number := "100",
         departureAt := "2025-01-01T10:00" }] }] }

/-- A malformed offer: its `itineraries` list is empty, so
`offer['itineraries'][0]` raises `IndexError`. -/
def offerNoItin : Offer := { itineraries := [] }

/-! ## Helper lemmas -/

@[simp]
theorem ensure_dates_start (today : Nat) (req : UserRequest) :
    (ensure_dates today req).start_date =
      some (req.start_date.getD (today + 14)) := by
  cases req with
  | mk o d sd ed bu it => cases sd <;> cases ed <;> simp [ensure_dates]

@[simp]
theorem ensure_dates_end (today : Nat) (req : UserRequest) :
    (ensure_dates today req).end_date =
      some (req.end_date.getD (req.start_date.getD (today + 14) + 7)) := by
  cases req with
  | mk o d sd ed bu it => cases sd <;> cases ed <;> simp [ensure_dates]

@[simp]
theorem ensure_dates_origin (today : Nat) (req : UserRequest) :
    (ensure_dates today req).origin = req.origin := by
  cases req with
  | mk o d sd ed bu it => cases sd <;> cases ed <;> simp [ensure_dates]

@[simp]
theorem ensure_dates_destination (today : Nat) (req : UserRequest) :
    (ensure_dates today req).destination = req.destination := by
  cases req with
  | mk o d sd ed bu it => cases sd <;> cases ed <;> simp [ensure_dates]

@[simp]
theorem ensure_dates_budget (today : Nat) (req : UserRequest) :
    (ensure_dates today req).budget = req.budget := by
  cases req with
  | mk o d sd ed bu it => cases sd <;> cases ed <;> simp [ensure_dates]

@[simp]
theorem ensure_dates_interests (today : Nat) (req : UserRequest) :
    (ensure_dates today req).interests = req.interests := by
  cases req with
  | mk o d sd ed bu it => cases sd <;> cases ed <;> simp [ensure_dates]

/-! ## Claim C2 -/

/-- C2: normalization `ensure_dates` is total (it is a Lean function) and,
for every request: an absent `start_date` becomes today + 14 days, an absent
`end_date` becomes the possibly-just-defaulted `start_date` + 7 days, dates
present on input are returned unchanged, and no other field is touched. -/
theorem ensure_dates_defaulting (today : Nat) (req : UserRequest) :
    (ensure_dates today req).start_date =
      some (req.start_date.getD (today + 14)) ∧
    (ensure_dates today req).end_date =
      some (req.end_date.getD (req.start_date.getD (today + 14) + 7)) ∧
    (ensure_dates today req).origin = req.origin ∧
    (ensure_dates today req).destination = req.destination ∧
    (ensure_dates today req).budget = req.budget ∧
    (ensure_dates today req).interests = req.interests := by
  refine ⟨ensure_dates_start today req, ensure_dates_end today req, ?_, ?_, ?_, ?_⟩ <;>
    simp

/-! ## Claim C1 (corrected) -/

/-- C1 counterexample: with both dates explicitly supplied and reversed
(start on day 10, end on day 5), `ensure_dates` leaves them as they are, so
the claimed invariant `end_date ≥ start_date` fails after normalization. -/
theorem ensure_dates_order_counterexample :
    ¬ ∀ (today : Nat) (req : UserRequest) (s e : Nat),
        (ensure_dates today req).start_date = some s →
        (ensure_dates today req).end_date = some e → s ≤ e := by
  intro h
  have h10 : (10 : Nat) ≤ 5 := h 0 reqBackwards 10 5 (by decide) (by decide)
  omega

/-- C1 amended: after `ensure_dates`, `start_date` and `end_date` are always
both present; `end_date` is moreover not earlier than `start_date` whenever
`end_date` was absent on input (it is then `start_date` + 7), but no ordering
is enforced when `end_date` was explicitly supplied by the caller. -/
theorem ensure_dates_invariant (today : Nat) (req : UserRequest) :
    (ensure_dates today req).start_date.isSome ∧
    (ensure_dates today req).end_date.isSome ∧
    (req.end_date = none →
      (ensure_dates today req).start_date.getD 0 ≤
        (ensure_dates today req).end_date.getD 0) := by
  refine ⟨by simp, by simp, fun h => ?_⟩
  simp [h]

/-- Witness for the amended C1 at a concrete dateless request. -/
theorem ensure_dates_invariant_witness :
    (ensure_dates 0 reqNoDates).start_date.isSome ∧
    (ensure_dates 0 reqNoDates).end_date.isSome ∧
    (ensure_dates 0 reqNoDates).start_date.getD 0 ≤
      (ensure_dates 0 reqNoDates).end_date.getD 0 :=
  ⟨(ensure_dates_invariant 0 reqNoDates).1,
   (ensure_dates_invariant 0 reqNoDates).2.1,
   (ensure_dates_invariant 0 reqNoDates).2.2 rfl⟩

/-! ## Claim C3 -/

theorem findIataLoop_eq_find? (cl : String) (table : List AirportInfo) :
    findIataLoop cl table =
      (table.find? (fun a => decide (pyLower (cityOf a) = cl))).map
        AirportInfo.code := by
  induction table with
  | nil => rfl
  | cons a rest ih =>
    by_cases h : pyLower (cityOf a) = cl <;>
      simp [findIataLoop, List.find?_cons, h, ih]

/-- C3: `find_iata` returns the code of the first table record (in iteration
order) whose city, lowercased, equals the stripped, lowercased input, and the
record-not-found error otherwise; in particular, given a record whose city is
`"paris"`, the inputs `"Paris"`, `" paris "`, and `"PARIS"` all resolve to
one same code. -/
theorem find_iata_first_match (table : List AirportInfo) (s : String) :
    find_iata table s =
      (match table.find?
          (fun a => decide (pyLower (cityOf a) = pyLower (pyStrip s))) with
       | some a => Except.ok a.code
       | none => Except.error ("No IATA code found for city " ++ s)) ∧
    ((∃ a ∈ table, cityOf a = "paris") →
      ∃ c, find_iata table "Paris" = .ok c ∧
        find_iata table " paris " = .ok c ∧
        find_iata table "PARIS" = .ok c) := by
  constructor
  · rw [find_iata, findIataLoop_eq_find?]
    cases table.find? (fun a => decide (pyLower (cityOf a) = pyLower (pyStrip s))) <;>
      simp
  · rintro ⟨a, ha, hcity⟩
    have hpred : (fun x => decide (pyLower (cityOf x) = "paris")) a = true := by
      simp [hcity]
      decide
    have hsome : (table.find?
        (fun x => decide (pyLower (cityOf x) = "paris"))).isSome = true :=
      List.find?_isSome.mpr ⟨a, ha, hpred⟩
    obtain ⟨b, hb⟩ := Option.isSome_iff_exists.mp hsome
    have h1 : pyLower (pyStrip "Paris") = "paris" := by decide
    have h2 : pyLower (pyStrip " paris ") = "paris" := by decide
    have h3 : pyLower (pyStrip "PARIS") = "paris" := by decide
    refine ⟨b.code, ?_, ?_, ?_⟩ <;>
      · rw [find_iata, findIataLoop_eq_find?]
        simp only [h1, h2, h3, hb, Option.map_some]
        rfl

/-- Witness for C3 at the concrete one-record table. -/
theorem find_iata_first_match_witness :
    ∃ c, find_iata parisTable "Paris" = .ok c ∧
      find_iata parisTable " paris " = .ok c ∧
      find_iata parisTable "PARIS" = .ok c :=
  (find_iata_first_match parisTable "Paris").2
    ⟨{ code := "CDG", city := some "paris" }, by decide, rfl⟩

/-! ## Claim C4 -/

/-- C4: when no record of the table matches, `find_iata` fails with the
not-found error naming the offending place (it never returns an `ok` code),
and an unresolvable destination makes the whole run produce no itinerary. -/
theorem find_iata_not_found (table : List AirportInfo) (s : String)
    (h : ∀ a ∈ table, pyLower (cityOf a) ≠ pyLower (pyStrip s)) :
    find_iata table s = .error ("No IATA code found for city " ++ s) ∧
    ∀ (today : Nat) (freq : FlightResp) (token : Option String)
      (eresp : EventResp) (geo : GeoResp) (rresp : RestResp)
      (req : UserRequest), req.destination = s →
      runPipeline today table freq token eresp geo rresp req = none := by
  have hnone : table.find?
      (fun a => decide (pyLower (cityOf a) = pyLower (pyStrip s))) = none :=
    List.find?_eq_none.mpr (by simpa using h)
  have herr : find_iata table s =
      .error ("No IATA code found for city " ++ s) := by
    rw [find_iata, findIataLoop_eq_find?, hnone]
    rfl
  refine ⟨herr, fun today freq token eresp geo rresp req hdest => ?_⟩
  rw [runPipeline]
  have hd : (ensure_dates today req).destination = s := by simp [hdest]
  cases horig : find_iata table (ensure_dates today req).origin with
  | error msg => rfl
  | ok origCode => rw [hd, herr]

/-- Witness for C4: "Atlantis" is not in the one-record table, so resolution
errors out and the pipeline yields no itinerary. -/
theorem find_iata_not_found_witness :
    find_iata parisTable "Atlantis" =
      .error ("No IATA code found for city " ++ "Atlantis") ∧
    runPipeline 0 parisTable (.ok none) none (.ok []) (.ok none) (.ok [])
      { origin := "paris", destination := "Atlantis" } = none :=
  ⟨(find_iata_not_found parisTable "Atlantis" (by decide)).1,
   (find_iata_not_found parisTable "Atlantis" (by decide)).2 0 (.ok none) none
     (.ok []) (.ok none) (.ok [])
     { origin := "paris", destination := "Atlantis" } rfl⟩

/-! ## Claim C10 -/

theorem pyLower_eq_empty_iff (s : String) : pyLower s = "" ↔ s = "" := by
  constructor
  · intro h
    have hdata : s.data.map Char.toLower = [] := congrArg String.data h
    exact String.ext (List.map_eq_nil_iff.mp hdata)
  · intro h
    subst h
    rfl

/-- C10: an input that is empty or all-whitespace strips to the empty string,
and `find_iata` then succeeds with the code of the first record whose city
field is absent or empty (its defaulted city compares equal to `""`), rather
than raising the not-found error. -/
theorem find_iata_blank_input (table : List AirportInfo) (s : String)
    (hs : pyStrip s = "") (a : AirportInfo)
    (ha : table.find? (fun x => decide (cityOf x = "")) = some a) :
    find_iata table s = .ok a.code := by
  have hpred : (fun x => decide (pyLower (cityOf x) = pyLower (pyStrip s))) =
      (fun x => decide (cityOf x = "")) := by
    funext x
    rw [hs]
    show decide (pyLower (cityOf x) = pyLower "") = decide (cityOf x = "")
    rw [decide_eq_decide]
    show pyLower (cityOf x) = "" ↔ cityOf x = ""
    exact pyLower_eq_empty_iff (cityOf x)
  rw [find_iata, findIataLoop_eq_find?, hpred, ha]
  rfl

/-- Witness for C10: on the whitespace input `"  "`, `find_iata` returns the
code of the first city-less record of the table. -/
theorem find_iata_blank_input_witness :
    find_iata tableWithCityless "  " = .ok "XYZ" :=
  find_iata_blank_input tableWithCityless "  " (by decide)
    { code := "XYZ", city := none } (by decide)

/-! ## Claim C5 (corrected) -/

/-- C5 counterexample: a provider response carrying four offers makes
`search_flights` return four descriptors — the `max: 3` limit is only a
request parameter, nothing truncates locally — and a response carrying one
offer with an empty `itineraries` list makes `search_flights` raise
(`IndexError` is not a `ResponseError`, so it escapes the boundary instead
of yielding an empty sequence). -/
theorem search_flights_truncation_counterexample :
    (search_flights (.ok (some [offerAA100, offerAA100, offerAA100,
        offerAA100])) =
      .ok ["AA100 on 2025-01-01T10:00", "AA100 on 2025-01-01T10:00",
           "AA100 on 2025-01-01T10:00", "AA100 on 2025-01-01T10:00"] ∧
    ¬ (["AA100 on 2025-01-01T10:00", "AA100 on 2025-01-01T10:00",
        "AA100 on 2025-01-01T10:00", "AA100 on 2025-01-01T10:00"].length ≤ 3)) ∧
    (search_flights (.ok (some [offerNoItin])) = .error "IndexError" ∧
    ∀ l : List String, search_flights (.ok (some [offerNoItin])) ≠ .ok l) := by
  refine ⟨⟨rfl, by decide⟩, rfl, fun l h => ?_⟩
  rw [show search_flights (.ok (some [offerNoItin])) =
    .error "IndexError" from rfl] at h
  cases h

theorem flightsLoop_all_described (offers : List Offer) :
    ∀ acc : List String, (∀ o ∈ offers, (describeOffer o).isSome) →
      flightsLoop offers acc = .ok (acc ++ offers.filterMap describeOffer) := by
  induction offers with
  | nil => intro acc _; simp [flightsLoop]
  | cons o rest ih =>
    intro acc h
    have ho : (describeOffer o).isSome := h o (List.mem_cons_self o rest)
    cases hit : o.itineraries.head? with
    | none => simp [describeOffer, hit] at ho
    | some itin =>
      cases hseg : itin.segments.head? with
      | none => simp [describeOffer, hit, hseg] at ho
      | some seg =>
        have hrest : ∀ x ∈ rest, (describeOffer x).isSome :=
          fun x hx => h x (List.mem_cons_of_mem o hx)
        have hdo : describeOffer o = some (describeSeg seg) := by
          simp [describeOffer, hit, hseg]
        simp only [flightsLoop, hit, hseg]
        rw [ih (acc ++ [describeSeg seg]) hrest]
        simp [List.filterMap_cons, hdo]

theorem filterMap_all_some_length {α β : Type} (f : α → Option β)
    (l : List α) (h : ∀ x ∈ l, (f x).isSome) :
    (l.filterMap f).length = l.length := by
  induction l with
  | nil => rfl
  | cons x rest ih =>
    have hx := h x (List.mem_cons_self x rest)
    obtain ⟨y, hy⟩ := Option.isSome_iff_exists.mp hx
    rw [List.filterMap_cons, hy]
    simp [ih (fun z hz => h z (List.mem_cons_of_mem x hz))]

theorem flightsLoop_has_bad (offers : List Offer) :
    ∀ acc : List String, (∃ o ∈ offers, describeOffer o = none) →
      flightsLoop offers acc = .error "IndexError" := by
  induction offers with
  | nil =>
    intro acc h
    obtain ⟨o, ho, _⟩ := h
    cases ho
  | cons o rest ih =>
    intro acc h
    cases hit : o.itineraries.head? with
    | none => simp [flightsLoop, hit]
    | some itin =>
      cases hseg : itin.segments.head? with
      | none => simp [flightsLoop, hit, hseg]
      | some seg =>
        have hgood : describeOffer o = some (describeSeg seg) := by
          simp [describeOffer, hit, hseg]
        obtain ⟨x, hx, hbad⟩ := h
        rcases List.mem_cons.mp hx with hx | hx
        · rw [hx, hgood] at hbad
          cases hbad
        · simp only [flightsLoop, hit, hseg]
          exact ih (acc ++ [describeSeg seg]) ⟨x, hx, hbad⟩

/-- C5 amended: on a provider error (`ResponseError`) or an absent/empty
offer list, `search_flights` returns the empty sequence without raising; on
a response whose offers each carry a first segment it returns one descriptor
per offer, in provider order — the bound of 3 comes solely from the `max: 3`
parameter sent to the provider, not from any local truncation; and on a
response containing a malformed offer (no first segment) it raises
`IndexError` past its boundary instead of returning a sequence. -/
theorem search_flights_spec (resp : FlightResp) :
    (∀ u : Unit, resp = .error u → search_flights resp = .ok []) ∧
    (resp = .ok none → search_flights resp = .ok []) ∧
    (∀ offers : List Offer, resp = .ok (some offers) →
      (∀ o ∈ offers, (describeOffer o).isSome) →
      search_flights resp = .ok (offers.filterMap describeOffer) ∧
      (offers.filterMap describeOffer).length = offers.length) ∧
    (∀ offers : List Offer, resp = .ok (some offers) →
      (∃ o ∈ offers, describeOffer o = none) →
      search_flights resp = .error "IndexError") := by
  refine ⟨fun u hu => ?_, fun h => ?_, fun offers hoff h => ?_,
    fun offers hoff h => ?_⟩
  · rw [hu]; rfl
  · rw [h]; rfl
  · constructor
    · rw [hoff, search_flights]
      simpa using flightsLoop_all_described offers [] h
    · exact filterMap_all_some_length describeOffer offers h
  · rw [hoff, search_flights]
    simpa using flightsLoop_has_bad offers [] h

/-- Witness for the amended C5: a single well-formed offer yields its one
descriptor, and a single malformed offer raises `IndexError`. -/
theorem search_flights_spec_witness :
    (search_flights (.ok (some [offerAA100])) =
      .ok ([offerAA100].filterMap describeOffer) ∧
    ([offerAA100].filterMap describeOffer).length = [offerAA100].length) ∧
    search_flights (.ok (some [offerNoItin])) = .error "IndexError" :=
  ⟨(search_flights_spec (.ok (some [offerAA100]))).2.2.1 [offerAA100] rfl
     (by decide),
   (search_flights_spec (.ok (some [offerNoItin]))).2.2.2 [offerNoItin] rfl
     ⟨offerNoItin, by decide, rfl⟩⟩

/-! ## Claim C7 -/

theorem eventsDescriptions_length (evs : List EventInfo) (l : List String)
    (h : eventsDescriptions evs = some l) : l.length = evs.length := by
  induction evs generalizing l with
  | nil =>
    rw [eventsDescriptions] at h
    cases h
    rfl
  | cons ev rest ih =>
    rw [eventsDescriptions] at h
    cases hd : describeEvent ev with
    | none => rw [hd] at h; cases h
    | some d =>
      rw [hd] at h
      cases hr : eventsDescriptions rest with
      | none => rw [hr] at h; cases h
      | some ds =>
        rw [hr] at h
        cases h
        simp [ih ds hr]

theorem eventsDescriptions_eq_none (evs : List EventInfo) (ev : EventInfo)
    (hmem : ev ∈ evs) (hbad : describeEvent ev = none) :
    eventsDescriptions evs = none := by
  induction evs with
  | nil => cases hmem
  | cons x rest ih =>
    rw [eventsDescriptions]
    rcases List.mem_cons.mp hmem with hx | hx
    · subst hx
      rw [hbad]
    · rw [ih hx]
      cases describeEvent x <;> rfl

/-- C7: `search_events` returns `[]` when no provider credential is
configured, whatever the provider response would have been; any transport
failure, and any parse failure among the first 3 events, also yields `[]`;
and the result never has more than 3 entries. -/
theorem search_events_spec (token : Option String) (resp : EventResp) :
    (tokenMissing token = true →
      ∀ resp2 : EventResp, search_events token resp2 = []) ∧
    (∀ u : Unit, resp = .error u → search_events token resp = []) ∧
    (∀ data : List EventInfo, resp = .ok data →
      (∃ ev ∈ data.take 3, describeEvent ev = none) →
      search_events token resp = []) ∧
    (search_events token resp).length ≤ 3 := by
  refine ⟨fun hmiss resp2 => ?_, fun u hu => ?_, fun data hdata hbad => ?_, ?_⟩
  · unfold search_events
    rw [if_pos hmiss]
  · rw [hu]
    unfold search_events
    cases tokenMissing token <;> rfl
  · obtain ⟨ev, hmem, hnone⟩ := hbad
    rw [hdata]
    unfold search_events
    simp only [eventsDescriptions_eq_none (data.take 3) ev hmem hnone]
    cases tokenMissing token <;> rfl
  · unfold search_events
    cases tokenMissing token with
    | true => simp
    | false =>
      simp only [Bool.false_eq_true, if_false]
      cases resp with
      | error _ => simp
      | ok data =>
        cases hdesc : eventsDescriptions (data.take 3) with
        | none => simp [hdesc]
        | some l =>
          simp only [hdesc]
          calc l.length = (data.take 3).length :=
                eventsDescriptions_length (data.take 3) l hdesc
            _ ≤ 3 := by simp [List.length_take]

/-- Witness for C7: a configured token with one field-less event yields `[]`
of length at most 3. -/
theorem search_events_spec_witness :
    search_events (some "tok") (.ok [{ nameText := none, startLocal := some "x" }]) = [] ∧
    (search_events (some "tok") (.ok [{ nameText := none, startLocal := some "x" }])).length ≤ 3 :=
  ⟨(search_events_spec (some "tok")
      (.ok [{ nameText := none, startLocal := some "x" }])).2.2.1
      [{ nameText := none, startLocal := some "x" }] rfl
      ⟨{ nameText := none, startLocal := some "x" }, by decide, rfl⟩,
   (search_events_spec (some "tok")
      (.ok [{ nameText := none, startLocal := some "x" }])).2.2.2⟩

/-! ## Claim C6 -/

theorem restaurantsLoop_length (els : List OsmElement) :
    ∀ acc : List String, acc.length ≤ 2 →
      (restaurantsLoop els acc).length ≤ 3 := by
  induction els with
  | nil => intro acc h; rw [restaurantsLoop]; omega
  | cons el rest ih =>
    intro acc h
    rw [restaurantsLoop]
    cases hn : nameOf el with
    | none =>
      simp only
      split
      · omega
      · exact ih acc h
    | some n =>
      simp only
      by_cases hcond : n ≠ "" ∧ n ∉ acc
      · rw [if_pos hcond]
        have hlen : (acc ++ [n]).length = acc.length + 1 := by simp
        split
        · omega
        · exact ih (acc ++ [n]) (by omega)
      · rw [if_neg hcond]
        split
        · omega
        · exact ih acc h

theorem restaurantsLoop_nodup (els : List OsmElement) :
    ∀ acc : List String, acc.Nodup → (restaurantsLoop els acc).Nodup := by
  induction els with
  | nil => intro acc h; rw [restaurantsLoop]; exact h
  | cons el rest ih =>
    intro acc h
    rw [restaurantsLoop]
    cases hn : nameOf el with
    | none =>
      simp only
      split
      · exact h
      · exact ih acc h
    | some n =>
      simp only
      by_cases hcond : n ≠ "" ∧ n ∉ acc
      · rw [if_pos hcond]
        have hnd : (acc ++ [n]).Nodup := by
          simp [List.nodup_append, h, hcond.2]
        split
        · exact hnd
        · exact ih (acc ++ [n]) hnd
      · rw [if_neg hcond]
        split
        · exact h
        · exact ih acc h

/-- C6 counterexample: a geocoder transport exception — the `geocode` call
sits outside the `try` block — makes `search_restaurants` raise past its
boundary instead of yielding an empty sequence. -/
theorem search_restaurants_geocode_counterexample :
    search_restaurants (.error ()) (.ok []) = .error "GeocoderError" ∧
    ∀ l : List String, search_restaurants (.error ()) (.ok []) ≠ .ok l := by
  refine ⟨rfl, fun l h => ?_⟩
  rw [show search_restaurants (.error ()) (.ok []) =
    .error "GeocoderError" from rfl] at h
  cases h

/-- C6 amended: every sequence `search_restaurants` returns has at most 3
entries and no duplicate names even when the provider repeats them; a
geocoder no-result and an Overpass transport failure each yield the empty
sequence; but a geocoder transport exception raises past the boundary, since
the geocode call is outside the `try` block. -/
theorem search_restaurants_spec (geo : GeoResp) (resp : RestResp) :
    (∀ l : List String, search_restaurants geo resp = .ok l →
      l.length ≤ 3 ∧ l.Nodup) ∧
    (geo = .ok none → search_restaurants geo resp = .ok []) ∧
    (∀ u : Unit, geo = .error u →
      search_restaurants geo resp = .error "GeocoderError") ∧
    (∀ c : Coords, ∀ u : Unit, geo = .ok (some c) → resp = .error u →
      search_restaurants geo resp = .ok []) := by
  refine ⟨fun l hl => ?_, fun hg => ?_, fun u hg => ?_, fun c u hg hr => ?_⟩
  · cases geo with
    | error u =>
      rw [show search_restaurants (.error u) resp =
        .error "GeocoderError" from rfl] at hl
      cases hl
    | ok og =>
      cases og with
      | none =>
        rw [show search_restaurants (.ok none) resp = .ok [] from rfl] at hl
        cases Except.ok.inj hl
        exact ⟨by simp, by simp⟩
      | some c =>
        cases resp with
        | error u =>
          rw [show search_restaurants (.ok (some c)) (.error u) =
            .ok [] from rfl] at hl
          cases Except.ok.inj hl
          exact ⟨by simp, by simp⟩
        | ok els =>
          rw [show search_restaurants (.ok (some c)) (.ok els) =
            .ok (restaurantsLoop els []) from rfl] at hl
          cases Except.ok.inj hl
          exact ⟨restaurantsLoop_length els [] (by simp),
                 restaurantsLoop_nodup els [] (by simp)⟩
  · rw [hg]
    rfl
  · rw [hg]
    rfl
  · rw [hg, hr]
    rfl

/-- Witness for the amended C6: a geocoder no-result and an Overpass
transport failure each give `.ok []`, a geocoder exception gives the raised
error. -/
theorem search_restaurants_spec_witness :
    search_restaurants (.ok none) (.ok []) = .ok [] ∧
    search_restaurants (.ok (some { lat := 0, lon := 0 })) (.error ()) =
      .ok [] ∧
    search_restaurants (.error ()) (.ok []) = .error "GeocoderError" :=
  ⟨(search_restaurants_spec (.ok none) (.ok [])).2.1 rfl,
   (search_restaurants_spec (.ok (some { lat := 0, lon := 0 }))
     (.error ())).2.2.2 { lat := 0, lon := 0 } () rfl rfl,
   (search_restaurants_spec (.error ()) (.ok [])).2.2.1 () rfl⟩

/-! ## Claim C8 -/

theorem infix_cons_ctx {α : Type} {m n : List α} (l : List α)
    (h : m <:+: n) : m <:+: l ++ n := by
  obtain ⟨s, t, rfl⟩ := h
  exact ⟨l ++ s, t, by simp⟩

theorem infix_head3 {α : Type} (a b c t : List α) :
    (a ++ (b ++ c)) <:+: a ++ (b ++ (c ++ t)) :=
  ⟨[], t, by simp⟩

/-- C8: the synthesis prompt renders the literal word `none` in place of each
of the flights, events, and restaurants sections that is empty, and the
comma-joined entries of the section otherwise. -/
theorem build_itinerary_prompt_sections (req : UserRequest)
    (f e r : List String) :
    (f = [] → "Flights: none. ".data <:+:
      (build_itinerary_prompt req f e r).data) ∧
    (f ≠ [] → ("Flights: " ++ String.intercalate ", " f ++ ". ").data <:+:
      (build_itinerary_prompt req f e r).data) ∧
    (e = [] → "Events: none. ".data <:+:
      (build_itinerary_prompt req f e r).data) ∧
    (e ≠ [] → ("Events: " ++ String.intercalate ", " e ++ ". ").data <:+:
      (build_itinerary_prompt req f e r).data) ∧
    (r = [] → "Restaurants: none. ".data <:+:
      (build_itinerary_prompt req f e r).data) ∧
    (r ≠ [] → ("Restaurants: " ++ String.intercalate ", " r ++ ". ").data <:+:
      (build_itinerary_prompt req f e r).data) := by
  have isEmpty_ne : ∀ l : List String, l ≠ [] → l.isEmpty = false := by
    intro l hl
    cases l with
    | nil => exact absurd rfl hl
    | cons x xs => rfl
  refine ⟨fun h => ?_, fun h => ?_, fun h => ?_, fun h => ?_, fun h => ?_,
    fun h => ?_⟩
  · subst h
    rw [show ("Flights: none. ").data =
      "Flights: ".data ++ ("none".data ++ ". ".data) from by decide]
    simp only [build_itinerary_prompt, String.data_append, List.append_assoc,
      List.isEmpty_nil, if_true]
    repeat (first | exact infix_head3 _ _ _ _ | apply infix_cons_ctx)
  · rw [show ("Flights: " ++ String.intercalate ", " f ++ ". ").data =
      "Flights: ".data ++ ((String.intercalate ", " f).data ++ ". ".data)
      from by simp [String.data_append]]
    simp only [build_itinerary_prompt, String.data_append, List.append_assoc,
      isEmpty_ne f h, Bool.false_eq_true, if_false]
    repeat (first | exact infix_head3 _ _ _ _ | apply infix_cons_ctx)
  · subst h
    rw [show ("Events: none. ").data =
      "Events: ".data ++ ("none".data ++ ". ".data) from by decide]
    simp only [build_itinerary_prompt, String.data_append, List.append_assoc,
      List.isEmpty_nil, if_true]
    repeat (first | exact infix_head3 _ _ _ _ | apply infix_cons_ctx)
  · rw [show ("Events: " ++ String.intercalate ", " e ++ ". ").data =
      "Events: ".data ++ ((String.intercalate ", " e).data ++ ". ".data)
      from by simp [String.data_append]]
    simp only [build_itinerary_prompt, String.data_append, List.append_assoc,
      isEmpty_ne e h, Bool.false_eq_true, if_false]
    repeat (first | exact infix_head3 _ _ _ _ | apply infix_cons_ctx)
  · subst h
    rw [show ("Restaurants: none. ").data =
      "Restaurants: ".data ++ ("none".data ++ ". ".data) from by decide]
    simp only [build_itinerary_prompt, String.data_append, List.append_assoc,
      List.isEmpty_nil, if_true]
    repeat (first | exact infix_head3 _ _ _ _ | apply infix_cons_ctx)
  · rw [show ("Restaurants: " ++ String.intercalate ", " r ++ ". ").data =
      "Restaurants: ".data ++ ((String.intercalate ", " r).data ++ ". ".data)
      from by simp [String.data_append]]
    simp only [build_itinerary_prompt, String.data_append, List.append_assoc,
      isEmpty_ne r h, Bool.false_eq_true, if_false]
    repeat (first | exact infix_head3 _ _ _ _ | apply infix_cons_ctx)

/-- Witness for C8: empty flights and restaurants render `none`, a two-entry
events list renders its comma-join. -/
theorem build_itinerary_prompt_sections_witness :
    "Flights: none. ".data <:+:
      (build_itinerary_prompt reqNoDates [] ["a", "b"] []).data ∧
    ("Events: " ++ String.intercalate ", " ["a", "b"] ++ ". ").data <:+:
      (build_itinerary_prompt reqNoDates [] ["a", "b"] []).data ∧
    "Restaurants: none. ".data <:+:
      (build_itinerary_prompt reqNoDates [] ["a", "b"] []).data :=
  ⟨(build_itinerary_prompt_sections reqNoDates [] ["a", "b"] []).1 rfl,
   (build_itinerary_prompt_sections reqNoDates [] ["a", "b"] []).2.2.2.1
     (by decide),
   (build_itinerary_prompt_sections reqNoDates [] ["a", "b"] []).2.2.2.2.1
     rfl⟩

/-! ## Claim C9 -/

/-- C9: two requests that differ only in `budget` drive the whole downstream
pipeline to the very same outcome — the same resolved codes, the same three
provider queries, the same fact lists, and the same synthesis prompt. -/
theorem runPipeline_budget_independent (today : Nat)
    (table : List AirportInfo) (freq : FlightResp) (token : Option String)
    (eresp : EventResp) (geo : GeoResp) (rresp : RestResp)
    (req : UserRequest) (b : Option Int) :
    runPipeline today table freq token eresp geo rresp
        { req with budget := b } =
      runPipeline today table freq token eresp geo rresp req := by
  have hnorm : ensure_dates today { req with budget := b } =
      { ensure_dates today req with budget := b } := by
    cases req with
    | mk o d sd ed bu it => cases sd <;> cases ed <;> simp [ensure_dates]
  unfold runPipeline
  rw [hnorm]
  rfl

end TravelAgent
